import Mathlib

/-!
Verification of the panels-downloader pipeline (`src/main.rs`).

The Rust program fetches a JSON manifest over HTTP, filters its entries to
those that carry a wallpaper URL, distributes the wallpapers round-robin over
a pool of worker lanes, and each lane downloads its items to
`{download_dir}/{lane}_{count}` with a `.jpg` extension applied via
`PathBuf::set_extension`.

We embed the program shallowly: pure Rust functions become Lean functions;
the effectful parts (HTTP, filesystem, channels) are parametrised by explicit
oracles/state, and the control flow of `App::run` and of the per-lane worker
loop is reproduced exactly, including the `?` early returns.
-/

/-- Rust struct `ManifestData` (main.rs lines 10-28): one catalog record, all fields
optional strings.  The JSON key `"as"` is aliased onto the field `_as`. -/
structure ManifestData where
  _as : Option String := none
  am : Option String := none
  dhd : Option String := none
  dsd : Option String := none
  e : Option String := none
  fs : Option String := none
  s : Option String := none
  wcl0 : Option String := none
  wcl1 : Option String := none
  wcl2 : Option String := none
  wcs0 : Option String := none
  wcs1 : Option String := none
  wcs2 : Option String := none
  wfs : Option String := none
  wft : Option String := none
deriving Repr, DecidableEq

/-- Rust `ManifestData::is_wallpaper` (main.rs lines 31-33):
`self.dhd.is_some() || self.dsd.is_some()`. -/
def ManifestData.is_wallpaper (self : ManifestData) : Bool :=
  self.dhd.isSome || self.dsd.isSome

/-- Rust `ManifestData::wallpaper_url` (main.rs lines 35-41):
`if let Some(url) = self.dhd.as_ref().or(self.dsd.as_ref()) { Some(url) } else { None }`. -/
def ManifestData.wallpaper_url (self : ManifestData) : Option String :=
  match self.dhd.or self.dsd with
  | some url => some url
  | none => none

/-- Rust struct `Manifest` (main.rs lines 77-81): a `u8` version and a map from string ids
to `ManifestData`.  The `HashMap` is embedded as an association list; its
iteration order is irrelevant to every claim below. -/
structure Manifest where
  version : Nat
  data : List (String × ManifestData)
deriving Repr, DecidableEq

/-- Rust `Manifest::wallpapers` (main.rs lines 95-97):
`self.data.values().filter(|&w| w.is_wallpaper()).collect()`. -/
def Manifest.wallpapers (self : Manifest) : List ManifestData :=
  (self.data.map Prod.snd).filter (fun w => w.is_wallpaper)

/-!
Destination paths.

Rust `download_wallpaper` (main.rs lines 52-53) computes the destination as
`download_dir.push(filename); download_dir.set_extension(".jpg")`.
We embed Rust's `Path::file_stem` / `PathBuf::set_extension` semantics for a
non-empty final path component: the extension of a file name is the portion
after its last `.`, except that a name whose only `.` is its first character
has no extension; `set_extension(ext)` truncates to the stem and, for
non-empty `ext`, appends `"." ++ ext` (the argument is used in its entirety,
dots included).
-/

/-- Drop characters up to and including the first `.`; `none` when there is
no dot.  Applied to the reversed name this locates the last dot. -/
def dropThroughDot : List Char → Option (List Char)
  | [] => none
  | c :: rest => if c = '.' then some rest else dropThroughDot rest

/-- Rust `Path::file_stem` on a single non-empty file-name component. -/
def rustFileStem (name : String) : String :=
  match dropThroughDot name.data.reverse with
  | none => name
  | some before =>
      if before.isEmpty then name else ⟨before.reverse⟩

/-- Rust `PathBuf::set_extension` acting on the file name `name`. -/
def rustSetExtension (name ext : String) : String :=
  if ext = "" then rustFileStem name else rustFileStem name ++ "." ++ ext

/-- The destination path built by `download_wallpaper` (main.rs lines 52-53):
push `filename` onto `download_dir`, then `set_extension(".jpg")` — note the
argument starts with a dot, exactly as in the source. -/
def destPath (download_dir filename : String) : String :=
  download_dir ++ "/" ++ rustSetExtension filename ".jpg"

/-- The per-item file name built by the worker (main.rs line 144):
`format!("{}_{}", thread_number, count)`. -/
def laneFilename (thread_number count : Nat) : String :=
  Nat.repr thread_number ++ "_" ++ Nat.repr count

/-!
Filesystem and HTTP environment.

The filesystem is an association list from paths to byte lists, newest
binding first.  `File::create_new` fails when the path already exists and
otherwise creates an empty file; `write_all` and `flush` outcomes come from
the environment, since their failures are external.
-/

/-- Shallow filesystem state: newest binding first. -/
structure FS where
  files : List (String × List Nat)
deriving Repr, DecidableEq

/-- Whether a file exists at `p`. -/
def FS.existsFile (fs : FS) (p : String) : Bool :=
  fs.files.any (fun kv => kv.1 = p)

/-- Write (create or replace) the contents at `p`. -/
def FS.set (fs : FS) (p : String) (bytes : List Nat) : FS :=
  ⟨(p, bytes) :: fs.files⟩

/-- Outcome of `client.get(url).send().await` followed by `.bytes().await`:
the connection can fail, the body read can fail, or bytes arrive. -/
inductive HttpResult where
  | connectErr : HttpResult
  | bodyErr : HttpResult
  | ok : List Nat → HttpResult
deriving Repr, DecidableEq

/-- External effects available to one `download_wallpaper` call. -/
structure DlEnv where
  http : String → HttpResult
  writeOk : Bool
  flushOk : Bool

/-- Result of one `download_wallpaper` call: `Ok(())` or an anyhow error
with the file system it leaves behind, or a Rust panic (the `unwrap` on
`wallpaper_url()`, which the wallpaper guard makes unreachable). -/
inductive DlResult where
  | ok : FS → DlResult
  | err : String → FS → DlResult
  | panicked : DlResult
deriving Repr, DecidableEq

/-- Rust `ManifestData::download_wallpaper` (main.rs lines 43-74), step for step:
bail when not a wallpaper; build the path; HTTP GET the chosen URL (each
failure mapped to its `.context(...)` message); `File::create_new` the
destination, failing if it exists; `write_all`; `flush`; each failure is an
early `?` return carrying the file system reached so far. -/
def ManifestData.download_wallpaper (self : ManifestData) (env : DlEnv)
    (fs : FS) (download_dir filename : String) : DlResult :=
  if self.is_wallpaper = false then
    .err "Manifest does not contain wallpaper data" fs
  else
    let path := destPath download_dir filename
    match self.wallpaper_url with
    | none => .panicked
    | some url =>
      match env.http url with
      | .connectErr => .err "Failed to connect to server to download wallpaper" fs
      | .bodyErr => .err "Failed to recieve data from the server" fs
      | .ok wallpaper_bytes =>
        if fs.existsFile path then
          .err "Failed to open filepath" fs
        else
          let fs1 := fs.set path []
          if env.writeOk then
            let fs2 := fs1.set path wallpaper_bytes
            if env.flushOk then .ok fs2
            else .err "Failed to flush file contents" fs2
          else .err "Failed to write wallpaper data to file" fs1

/-!
Work distribution and the worker loop.

Rust `App::run` (main.rs lines 122-136) creates one unbounded channel per worker
and sends the enumerated wallpaper at position `i` to `senders[i % workers]`.
A channel queue is a FIFO list; sending appends at the back.
-/

/-- Append `x` to the `j`-th queue; out-of-range `j` leaves the queues
unchanged (in Rust `senders.index(j)` would panic, but `j = i % workers` is
always in range once `workers ≥ 1`). -/
def pushTo : List (List α) → Nat → α → List (List α)
  | [], _, _ => []
  | q :: qs, 0, x => (q ++ [x]) :: qs
  | q :: qs, Nat.succ j, x => q :: pushTo qs j x

/-- The fan-out loop of `App::run` (main.rs lines 129-134):
`for (i, wallpaper) in wallpapers.into_iter().enumerate() { senders.index(i % workers).send(wallpaper.clone()) }`,
starting from `workers` empty queues. -/
def distribute (wallpapers : List ManifestData) (workers : Nat) : List (List ManifestData) :=
  wallpapers.enum.foldl (fun qs p => pushTo qs (p.1 % workers) p.2)
    (List.replicate workers [])

/-- Observable record of one lane's execution: the `(entry, filename)` pairs
it attempted, in order, and the lane task's `Result<()>`. -/
structure LaneRun where
  attempted : List (ManifestData × String)
  result : Except String Unit
deriving Repr

/-- The spawned worker loop of `App::run` (main.rs lines 140-151):
`while let Some(wallpaper) = reciever.recv().await { let filename = format!(...); count += 1; wallpaper.download_wallpaper(...).await?; }`.
The outcome of each awaited `download_wallpaper` call is supplied by the
oracle `download`; the `?` makes the task return the first error at once. -/
def workerLoop (download : ManifestData → String → Except String Unit)
    (thread_number : Nat) (count : Nat) : List ManifestData → LaneRun
  | [] => ⟨[], .ok ()⟩
  | wallpaper :: rest =>
    let filename := laneFilename thread_number count
    match download wallpaper filename with
    | .ok _ =>
        let r := workerLoop download thread_number (count + 1) rest
        ⟨(wallpaper, filename) :: r.attempted, r.result⟩
    | .error msg => ⟨[(wallpaper, filename)], .error msg⟩

/-- Rust struct `App` (main.rs lines 100-104). -/
structure App where
  panels_domain : String
  download_directory : String
  workers : Nat
deriving Repr, DecidableEq

/-- Rust `App::new` (main.rs lines 107-114): `let workers = max(workers, 1)`. -/
def App.new (panels_domain download_directory : String) (workers : Nat) : App :=
  { panels_domain := panels_domain
    download_directory := download_directory
    workers := max workers 1 }

/-- External effects of one `App::run` call: the `create_dir_all` outcome,
the `Manifest::get` outcome (fetch + parse), whether every channel `send`
succeeds, and the outcome oracle for each `download_wallpaper` call. -/
structure RunEnv where
  createDirResult : Except String Unit
  fetchResult : Except String Manifest
  sendOk : Bool
  download : ManifestData → String → Except String Unit

/-- The per-lane results `App::run` spawns and then discards: lane
`thread_number` runs `workerLoop` over queue number `thread_number` of the
distribution, starting its private `count` at 0 (main.rs lines 137-152). -/
def App.laneRuns (self : App) (env : RunEnv) (wallpapers : List ManifestData) :
    List LaneRun :=
  (distribute wallpapers self.workers).enum.map
    (fun p => workerLoop env.download p.1 0 p.2)

/-- Rust `App::run` (main.rs lines 116-155): `create_dir_all(...)?`, then
`Manifest::get(...)?`, filter to wallpapers, distribute (each `send` is
`?`-propagated), spawn the lanes, `futures.join_all().await` — whose results
are discarded — and return `Ok(())`. -/
def App.run (self : App) (env : RunEnv) : Except String Unit :=
  match env.createDirResult with
  | .error msg => .error msg
  | .ok _ =>
    match env.fetchResult with
    | .error msg => .error msg
    | .ok manifest =>
      let wallpapers := manifest.wallpapers
      if env.sendOk then
        let _laneResults := self.laneRuns env wallpapers
        .ok ()
      else
        .error "Failed to send ManifestData through channel"

/-!
Manifest deserialization.

Rust `Manifest` and `ManifestData` derive `serde::Deserialize` with no container
attributes, so: the input must be a JSON object; fields not named in the
struct are ignored; `version: u8` and `data: HashMap<..>` are required and
their absence is a parse error; a `u8` must be an integer in `0..=255`;
every `Option<String>` field is `None` when absent or `null`, `Some` for a
string, and a type error otherwise; `#[serde(alias = "as")]` lets the field
`_as` be populated from either key.  We embed JSON values with integer
numbers (enough to exercise the `u8` range check) and objects as key/value
lists, reading the first occurrence of a key.
-/

/-- JSON values (numbers restricted to integers). -/
inductive Json where
  | null : Json
  | bool : Bool → Json
  | num : Int → Json
  | str : String → Json
  | arr : List Json → Json
  | obj : List (String × Json) → Json

/-- First value bound to any of the accepted `names` in an object's fields. -/
def Json.getField (fields : List (String × Json)) (names : List String) : Option Json :=
  match fields.find? (fun kv => names.contains kv.1) with
  | some kv => some kv.2
  | none => none

/-- serde's `u8` deserializer: an integer in `0..=255`, else a type/value error. -/
def parseU8 (j : Json) : Except String Nat :=
  match j with
  | .num n => if 0 ≤ n ∧ n ≤ 255 then .ok n.toNat
              else .error "invalid value: integer out of range for u8"
  | _ => .error "invalid type: expected u8"

/-- serde's `Option<String>` field deserializer: absent fields are handled by
the caller; present fields accept `null` and strings. -/
def parseOptString (j : Json) : Except String (Option String) :=
  match j with
  | .null => .ok none
  | .str s => .ok (some s)
  | _ => .error "invalid type: expected a string"

/-- Read one optional-string field, accepting any of the given key names;
absent means `None`. -/
def optStringField (fields : List (String × Json)) (names : List String) :
    Except String (Option String) :=
  match Json.getField fields names with
  | none => .ok none
  | some j => parseOptString j

/-- Deserialize one `ManifestData` (main.rs lines 10-28): all fields optional,
`_as` aliased so both `"as"` and `"_as"` populate it, unknown keys ignored. -/
def ManifestData.fromJson (j : Json) : Except String ManifestData :=
  match j with
  | .obj fields => do
    let _as ← optStringField fields ["as", "_as"]
    let am ← optStringField fields ["am"]
    let dhd ← optStringField fields ["dhd"]
    let dsd ← optStringField fields ["dsd"]
    let e ← optStringField fields ["e"]
    let fs ← optStringField fields ["fs"]
    let s ← optStringField fields ["s"]
    let wcl0 ← optStringField fields ["wcl0"]
    let wcl1 ← optStringField fields ["wcl1"]
    let wcl2 ← optStringField fields ["wcl2"]
    let wcs0 ← optStringField fields ["wcs0"]
    let wcs1 ← optStringField fields ["wcs1"]
    let wcs2 ← optStringField fields ["wcs2"]
    let wfs ← optStringField fields ["wfs"]
    let wft ← optStringField fields ["wft"]
    .ok { _as := _as, am := am, dhd := dhd, dsd := dsd, e := e, fs := fs,
          s := s, wcl0 := wcl0, wcl1 := wcl1, wcl2 := wcl2, wcs0 := wcs0,
          wcs1 := wcs1, wcs2 := wcs2, wfs := wfs, wft := wft }
  | _ => .error "invalid type: expected struct ManifestData"

/-- Deserialize the `data` map: every value must be a `ManifestData`. -/
def parseDataMap (dfields : List (String × Json)) :
    Except String (List (String × ManifestData)) :=
  dfields.mapM (fun kv => (ManifestData.fromJson kv.2).map (fun d => (kv.1, d)))

/-- Deserialize a `Manifest` (main.rs lines 77-81): requires the `version`
key (a `u8`) and the `data` key (an object of `ManifestData`); unknown
top-level keys are ignored. -/
def Manifest.fromJson (j : Json) : Except String Manifest :=
  match j with
  | .obj fields =>
    match Json.getField fields ["version"] with
    | none => .error "missing field version"
    | some vj =>
      match parseU8 vj with
      | .error msg => .error msg
      | .ok version =>
        match Json.getField fields ["data"] with
        | none => .error "missing field data"
        | some dj =>
          match dj with
          | .obj dfields =>
            match parseDataMap dfields with
            | .error msg => .error msg
            | .ok data => .ok { version := version, data := data }
          | _ => .error "invalid type: expected a map"
  | _ => .error "invalid type: expected struct Manifest"

/-!
Concrete sample data used by the witness and counterexample theorems below.
-/

/-- A wallpaper entry carrying both full-image URLs. -/
def entryBoth : ManifestData := { dhd := some "hd", dsd := some "sd" }

/-- A wallpaper entry carrying only the standard-definition URL. -/
def entryOnlySd : ManifestData := { dsd := some "sd" }

/-- An entry with no URL fields at all — not a wallpaper. -/
def entryNone : ManifestData := {}

/-- A five-entry wallpaper list, for exercising the round-robin split. -/
def ents5 : List ManifestData :=
  [entryBoth, entryOnlySd, { dhd := some "u2" }, { dhd := some "u3" }, { dhd := some "u4" }]

/-- A download-outcome oracle that fails exactly on `entryBoth`. -/
def dlBoom : ManifestData → String → Except String Unit :=
  fun w _ => if w = entryBoth then .error "boom" else .ok ()

/-- A concrete manifest: two wallpapers and one non-wallpaper entry. -/
def sampleManifest : Manifest :=
  { version := 5
    data := [("k1", entryBoth), ("k2", entryNone), ("k3", entryOnlySd)] }

/-- A run environment in which the fatal-tier steps all succeed but every
`download_wallpaper` call on `entryBoth` fails. -/
def sampleEnv : RunEnv :=
  { createDirResult := .ok ()
    fetchResult := .ok sampleManifest
    sendOk := true
    download := dlBoom }

/-- The `App` built by `main` (main.rs line 160). -/
def sampleApp : App := App.new "http://localhost:8080" "wallpapers" 10

/-- The empty filesystem. -/
def fsEmpty : FS := ⟨[]⟩

/-- A filesystem already holding a file at lane 0's first destination path. -/
def fsWithDest : FS := ⟨[(destPath "wallpapers" (laneFilename 0 0), [7])]⟩

/-- A download environment whose HTTP GET always yields bytes. -/
def envOkHttp : DlEnv := { http := fun _ => .ok [1, 2, 3], writeOk := true, flushOk := true }

/-- A JSON manifest body with `version`, a well-formed `data` map, and
unknown fields both at top level and inside entries; it parses to
`sampleManifest`. -/
def sampleBody : Json :=
  .obj [("version", .num 5),
        ("junk", .arr [.null]),
        ("data", .obj
          [("k1", .obj [("dhd", .str "hd"), ("dsd", .str "sd"), ("mystery", .num 3)]),
           ("k2", .obj []),
           ("k3", .obj [("dsd", .str "sd"), ("wft", .null)])])]

/-- A JSON object with a `data` map but no `version` key. -/
def fieldsNoVer : List (String × Json) := [("data", .obj []), ("ver", .num 1)]

/-- A JSON object whose `version` value is out of `u8` range. -/
def fieldsBadVer : List (String × Json) := [("version", .num 256), ("data", .obj [])]

/-!
Helper lemmas.
-/

/-- No digit character produced by `Nat.digitChar` is a dot. -/
theorem digitChar_ne_dot (n : Nat) : Nat.digitChar n ≠ '.' := by
  by_cases h : n < 16
  · interval_cases n <;> decide
  · unfold Nat.digitChar
    repeat rw [if_neg (show ¬_ = _ by omega)]
    decide

/-- Every character emitted by `Nat.toDigitsCore` is either from the seed
list or a digit character. -/
theorem toDigitsCore_mem (b : Nat) : ∀ (fuel n : Nat) (ds : List Char) (c : Char),
    c ∈ Nat.toDigitsCore b fuel n ds → c ∈ ds ∨ ∃ m, c = Nat.digitChar m := by
  intro fuel
  induction fuel with
  | zero =>
    intro n ds c hc
    simp only [Nat.toDigitsCore] at hc
    exact Or.inl hc
  | succ fuel ih =>
    intro n ds c hc
    simp only [Nat.toDigitsCore] at hc
    by_cases h : n / b = 0
    · rw [if_pos h] at hc
      rcases List.mem_cons.mp hc with h1 | h1
      · exact Or.inr ⟨n % b, h1⟩
      · exact Or.inl h1
    · rw [if_neg h] at hc
      rcases ih (n / b) (Nat.digitChar (n % b) :: ds) c hc with h1 | h1
      · rcases List.mem_cons.mp h1 with h2 | h2
        · exact Or.inr ⟨n % b, h2⟩
        · exact Or.inl h2
      · exact Or.inr h1

/-- The decimal representation of a natural number contains no dot. -/
theorem repr_no_dot (n : Nat) : '.' ∉ (Nat.repr n).data := by
  intro hmem
  have hmem2 : ('.' : Char) ∈ Nat.toDigitsCore 10 (n + 1) n [] := by
    simpa [Nat.repr, Nat.toDigits, List.asString] using hmem
  rcases toDigitsCore_mem 10 (n + 1) n [] '.' hmem2 with h | ⟨m, hm⟩
  · simp at h
  · exact digitChar_ne_dot m hm.symm

/-- The worker's `{thread_number}_{count}` file names contain no dot. -/
theorem laneFilename_no_dot (tn c : Nat) : '.' ∉ (laneFilename tn c).data := by
  intro hmem
  rw [laneFilename, String.data_append, String.data_append] at hmem
  rcases List.mem_append.mp hmem with h | h
  · rcases List.mem_append.mp h with h1 | h1
    · exact repr_no_dot tn h1
    · exact absurd h1 (by decide)
  · exact repr_no_dot c h

/-- Scanning a dot-free character list finds no dot. -/
theorem dropThroughDot_eq_none (l : List Char) (h : '.' ∉ l) : dropThroughDot l = none := by
  induction l with
  | nil => rfl
  | cons c rest ih =>
    rw [dropThroughDot]
    rw [if_neg (by intro hc; exact h (hc ▸ List.mem_cons_self c rest))]
    exact ih (fun hm => h (List.mem_cons_of_mem c hm))

/-- A dot-free file name is its own stem. -/
theorem rustFileStem_no_dot (name : String) (h : '.' ∉ name.data) :
    rustFileStem name = name := by
  rw [rustFileStem, dropThroughDot_eq_none name.data.reverse (by simpa using h)]

/-- `pushTo` preserves the number of queues. -/
theorem pushTo_length {α : Type} (qs : List (List α)) (j : Nat) (x : α) :
    (pushTo qs j x).length = qs.length := by
  induction qs generalizing j with
  | nil => rfl
  | cons q qs ih =>
    cases j with
    | zero => rfl
    | succ j => simp [pushTo, ih]

/-- `pushTo` leaves every other queue unchanged. -/
theorem pushTo_getD_ne {α : Type} (qs : List (List α)) (j k : Nat) (x : α) (h : k ≠ j) :
    (pushTo qs j x).getD k [] = qs.getD k [] := by
  induction qs generalizing j k with
  | nil => rfl
  | cons q qs ih =>
    cases j with
    | zero =>
      cases k with
      | zero => exact absurd rfl h
      | succ k => rfl
    | succ j =>
      cases k with
      | zero => rfl
      | succ k =>
        simp only [pushTo, List.getD_cons_succ]
        exact ih j k (fun hh => h (by omega))

/-- `pushTo` appends the sent item at the back of the target queue. -/
theorem pushTo_getD_eq {α : Type} (qs : List (List α)) (j : Nat) (x : α) (h : j < qs.length) :
    (pushTo qs j x).getD j [] = qs.getD j [] ++ [x] := by
  induction qs generalizing j with
  | nil => simp at h
  | cons q qs ih =>
    cases j with
    | zero => rfl
    | succ j =>
      simp only [pushTo, List.getD_cons_succ]
      exact ih j (by simpa using h)

/-- An in-range `pushTo` grows the total queued-item count by one. -/
theorem pushTo_sum_length {α : Type} (qs : List (List α)) (j : Nat) (x : α)
    (h : j < qs.length) :
    ((pushTo qs j x).map List.length).sum = (qs.map List.length).sum + 1 := by
  induction qs generalizing j with
  | nil => simp at h
  | cons q qs ih =>
    cases j with
    | zero => simp [pushTo]; omega
    | succ j =>
      simp only [pushTo, List.map_cons, List.sum_cons]
      rw [ih j (by simpa using h)]
      omega

/-- The fan-out fold preserves the number of queues. -/
theorem foldl_pushTo_length {α : Type} (w : Nat) (ps : List (Nat × α)) (qs : List (List α)) :
    (ps.foldl (fun qs p => pushTo qs (p.1 % w) p.2) qs).length = qs.length := by
  induction ps generalizing qs with
  | nil => rfl
  | cons p ps ih => rw [List.foldl_cons, ih, pushTo_length]

/-- After the fan-out fold, queue `j` holds its initial content followed by
exactly the sent items whose index is `j` modulo `w`, in order. -/
theorem foldl_pushTo_getD {α : Type} (w : Nat) (ps : List (Nat × α))
    (qs : List (List α)) (hlen : qs.length = w) (j : Nat) (hj : j < w) :
    (ps.foldl (fun qs p => pushTo qs (p.1 % w) p.2) qs).getD j [] =
      qs.getD j [] ++ (ps.filter (fun p => p.1 % w = j)).map Prod.snd := by
  induction ps generalizing qs with
  | nil => simp
  | cons p ps ih =>
    rw [List.foldl_cons, ih (pushTo qs (p.1 % w) p.2) (by rw [pushTo_length, hlen])]
    by_cases hpj : p.1 % w = j
    · rw [hpj, pushTo_getD_eq qs j p.2 (by omega)]
      simp [List.filter_cons, hpj]
    · rw [pushTo_getD_ne qs (p.1 % w) j p.2 (fun hh => hpj hh.symm)]
      simp [List.filter_cons, hpj]

/-- The fan-out fold queues one item per sent pair: nothing is dropped or
duplicated. -/
theorem foldl_pushTo_sum {α : Type} (w : Nat) (hw : 1 ≤ w) (ps : List (Nat × α))
    (qs : List (List α)) (hlen : qs.length = w) :
    ((ps.foldl (fun qs p => pushTo qs (p.1 % w) p.2) qs).map List.length).sum =
      (qs.map List.length).sum + ps.length := by
  induction ps generalizing qs with
  | nil => simp
  | cons p ps ih =>
    rw [List.foldl_cons, ih (pushTo qs (p.1 % w) p.2) (by rw [pushTo_length, hlen])]
    rw [pushTo_sum_length qs (p.1 % w) p.2 (by rw [hlen]; exact Nat.mod_lt _ (by omega))]
    simp
    omega

/-- Reading any queue of the initial all-empty pool yields the empty queue. -/
theorem replicate_getD_nil {α : Type} (w j : Nat) :
    (List.replicate w ([] : List α)).getD j [] = [] := by
  induction w generalizing j with
  | zero => cases j <;> rfl
  | succ w ih =>
    cases j with
    | zero => rfl
    | succ j =>
      rw [List.replicate_succ, List.getD_cons_succ]
      exact ih j

/-- `distribute` always creates exactly `workers` queues. -/
theorem distribute_length (entries : List ManifestData) (w : Nat) :
    (distribute entries w).length = w := by
  rw [distribute, foldl_pushTo_length, List.length_replicate]

/-!
Claim theorems.
-/

/-- Claim C1, counterexample.  The claim says a per-item failure skips only
that entry and the worker continues with the remaining entries of its lane.
In the code the worker loop propagates the failure with `?` (main.rs line
148), aborting the lane: with a two-entry lane whose first download fails,
the lane's task ends with that error and the second entry is never
attempted. -/
theorem c1_per_item_failure_aborts_lane_cex :
    (workerLoop dlBoom 0 0 [entryBoth, entryOnlySd]).result = .error "boom" ∧
    (workerLoop dlBoom 0 0 [entryBoth, entryOnlySd]).attempted.map Prod.fst = [entryBoth] ∧
    entryOnlySd ≠ entryBoth :=
  ⟨rfl, by decide, by decide⟩

/-- Claim C1, amended.  When the `download_wallpaper` call for the entry at
the head of the queue fails, the worker's task returns that error at once:
the failing entry is the only one attempted and all remaining entries of the
lane are abandoned (the lane aborts; per-lane errors are still discarded by
the orchestrator, see C6). -/
theorem c1_lane_aborts_on_first_error
    (download : ManifestData → String → Except String Unit)
    (tn c : Nat) (w : ManifestData) (rest : List ManifestData) (msg : String)
    (h : download w (laneFilename tn c) = .error msg) :
    workerLoop download tn c (w :: rest) = ⟨[(w, laneFilename tn c)], .error msg⟩ := by
  simp [workerLoop, h]

/-- Witness for C1's amended theorem at a concrete failing download. -/
theorem c1_lane_aborts_on_first_error_witness :
    dlBoom entryBoth (laneFilename 0 0) = .error "boom" ∧
    workerLoop dlBoom 0 0 [entryBoth, entryOnlySd] =
      ⟨[(entryBoth, laneFilename 0 0)], .error "boom"⟩ :=
  ⟨rfl, c1_lane_aborts_on_first_error dlBoom 0 0 entryBoth [entryOnlySd] "boom" rfl⟩

/-- Claim C2, counterexample.  The claim says the destination path is
`{output_dir}/{lane}_{sequence}.jpg`; the code's
`set_extension(".jpg")` (main.rs line 53) appends the dot-bearing argument
after a dot of its own, so lane 0's first item goes to
`wallpapers/0_0..jpg`, not `wallpapers/0_0.jpg`. -/
theorem c2_dest_path_cex :
    destPath "wallpapers" (laneFilename 0 0) ≠ "wallpapers" ++ "/" ++ "0_0.jpg" ∧
    destPath "wallpapers" (laneFilename 0 0) = "wallpapers" ++ "/" ++ "0_0..jpg" := by
  constructor <;> decide

/-- Claim C2, amended.  For every downloaded item the destination path is
the output directory joined with `{lane_index}_{sequence_in_lane}..jpg` —
with a doubled dot, because `set_extension` is called with the dot-bearing
argument `".jpg"`.  The sequence is the lane's counter starting at 0
(`workerLoop` threads `count` and `count + 1`, and `App.laneRuns` starts
each lane at 0, exactly as main.rs lines 141-145). -/
theorem c2_dest_path_double_dot (dir : String) (tn c : Nat) :
    destPath dir (laneFilename tn c) = dir ++ "/" ++ laneFilename tn c ++ "..jpg" := by
  rw [destPath, rustSetExtension, if_neg (by decide)]
  rw [rustFileStem_no_dot _ (laneFilename_no_dot tn c)]
  apply String.ext
  simp [String.data_append]

/-- Claim C3, confirmed.  Distribution is deterministic and exhaustive: with
`w ≥ 1` lanes, `distribute` yields exactly `w` queues; queue `j` contains
precisely the entries whose 0-based filter-output position `i` satisfies
`i % w = j`, in position order; and the queue sizes add up to the number of
entries, so every entry is sent to exactly one lane. -/
theorem c3_round_robin (entries : List ManifestData) (w j : Nat)
    (hw : 1 ≤ w) (hj : j < w) :
    (distribute entries w).length = w ∧
    (distribute entries w).getD j [] =
      (entries.enum.filter (fun p => p.1 % w = j)).map Prod.snd ∧
    ((distribute entries w).map List.length).sum = entries.length := by
  refine ⟨distribute_length entries w, ?_, ?_⟩
  · rw [distribute, foldl_pushTo_getD w entries.enum (List.replicate w [])
      (List.length_replicate w []) j hj, replicate_getD_nil]
    simp
  · rw [distribute, foldl_pushTo_sum w hw entries.enum (List.replicate w [])
      (List.length_replicate w [])]
    simp [List.enum_length]

/-- Witness for C3 at five entries and two lanes (lane 1 gets positions 1
and 3). -/
theorem c3_round_robin_witness :
    1 ≤ 2 ∧ (1 : Nat) < 2 ∧
    ((distribute ents5 2).length = 2 ∧
     (distribute ents5 2).getD 1 [] =
       (ents5.enum.filter (fun p => p.1 % 2 = 1)).map Prod.snd ∧
     ((distribute ents5 2).map List.length).sum = ents5.length) :=
  ⟨by decide, by decide, c3_round_robin ents5 2 1 (by decide) (by decide)⟩

/-- Claim C4, confirmed.  `is_wallpaper e` holds exactly when `dhd` or `dsd`
is present, and `wallpapers` returns exactly the entries of the manifest's
data map satisfying that predicate. -/
theorem c4_wallpaper_filter (e : ManifestData) (m : Manifest) :
    (e.is_wallpaper = true ↔ (e.dhd.isSome = true ∨ e.dsd.isSome = true)) ∧
    (e ∈ m.wallpapers ↔ (e ∈ m.data.map Prod.snd ∧ e.is_wallpaper = true)) := by
  constructor
  · simp [ManifestData.is_wallpaper]
  · simp [Manifest.wallpapers, List.mem_filter]

/-- Claim C5, confirmed.  The resolved download URL is `dhd` whenever `dhd`
is present (regardless of `dsd`), and `dsd` when only `dsd` is present. -/
theorem c5_url_precedence :
    (∀ (e : ManifestData) (url : String), e.dhd = some url → e.wallpaper_url = some url) ∧
    (∀ (e : ManifestData) (url : String),
      e.dhd = none → e.dsd = some url → e.wallpaper_url = some url) := by
  constructor
  · intro e url h
    simp [ManifestData.wallpaper_url, h]
  · intro e url h1 h2
    simp [ManifestData.wallpaper_url, h1, h2]

/-- Witness for C5 on an entry with both URLs and an entry with only `dsd`. -/
theorem c5_url_precedence_witness :
    entryBoth.dhd = some "hd" ∧ entryOnlySd.dhd = none ∧ entryOnlySd.dsd = some "sd" ∧
    entryBoth.wallpaper_url = some "hd" ∧ entryOnlySd.wallpaper_url = some "sd" :=
  ⟨rfl, rfl, rfl, c5_url_precedence.1 entryBoth "hd" rfl,
    c5_url_precedence.2 entryOnlySd "sd" rfl rfl⟩

/-- Claim C6, confirmed.  Whenever directory creation, the manifest fetch
and parse, and every channel send succeed, `run` returns `Ok(())`,
whatever the download oracle does inside the lanes: `join_all`'s results are
discarded (main.rs lines 153-154), so per-lane failures never escalate. -/
theorem c6_run_success (a : App) (env : RunEnv) (m : Manifest)
    (h1 : env.createDirResult = .ok ()) (h2 : env.fetchResult = .ok m)
    (h3 : env.sendOk = true) : a.run env = .ok () := by
  simp [App.run, h1, h2, h3]

/-- Witness for C6 in an environment whose downloads of `entryBoth` fail. -/
theorem c6_run_success_witness :
    sampleEnv.createDirResult = .ok () ∧ sampleEnv.fetchResult = .ok sampleManifest ∧
    sampleEnv.sendOk = true ∧ sampleApp.run sampleEnv = .ok () :=
  ⟨rfl, rfl, rfl, c6_run_success sampleApp sampleEnv sampleManifest rfl rfl rfl⟩

/-- Claim C7, confirmed.  `App::new` clamps the configured worker count to
`max(workers, 1)`, the number of lanes `distribute` creates equals that
clamped count, and a configured count of 0 yields exactly 1 lane. -/
theorem c7_lane_count (domain dir : String) (w : Nat) (entries : List ManifestData) :
    (App.new domain dir w).workers = max w 1 ∧
    (distribute entries (App.new domain dir w).workers).length = max w 1 ∧
    (App.new domain dir 0).workers = 1 :=
  ⟨rfl, distribute_length entries (max w 1), rfl⟩

/-- Claim C8, confirmed.  The destination file is opened with
`File::create_new` semantics: when a file already exists at the destination
path, the creation step fails (with its `.context` message) and the
filesystem is returned unchanged — nothing is overwritten. -/
theorem c8_create_new_no_overwrite (e : ManifestData) (env : DlEnv) (fs : FS)
    (dir f url : String) (bytes : List Nat)
    (hw : e.is_wallpaper = true) (hu : e.wallpaper_url = some url)
    (hh : env.http url = .ok bytes)
    (hex : fs.existsFile (destPath dir f) = true) :
    e.download_wallpaper env fs dir f = .err "Failed to open filepath" fs := by
  rw [ManifestData.download_wallpaper]
  rw [if_neg (by simp [hw])]
  simp only [hu, hh, hex]
  simp

/-- Witness for C8: the pre-existing file at lane 0's first path makes the
creation step fail and leaves the filesystem untouched. -/
theorem c8_create_new_no_overwrite_witness :
    entryBoth.is_wallpaper = true ∧ entryBoth.wallpaper_url = some "hd" ∧
    envOkHttp.http "hd" = .ok [1, 2, 3] ∧
    fsWithDest.existsFile (destPath "wallpapers" (laneFilename 0 0)) = true ∧
    entryBoth.download_wallpaper envOkHttp fsWithDest "wallpapers" (laneFilename 0 0) =
      .err "Failed to open filepath" fsWithDest :=
  ⟨rfl, rfl, rfl, by decide,
   c8_create_new_no_overwrite entryBoth envOkHttp fsWithDest "wallpapers"
     (laneFilename 0 0) "hd" [1, 2, 3] rfl rfl rfl (by decide)⟩

/-- Claim C9, confirmed.  For every entry satisfying the wallpaper
predicate, `wallpaper_url` is `Some`, so inside `download_wallpaper` the
`bail!("Manifest does not contain wallpaper data")` branch is not taken and
the `unwrap` of `wallpaper_url()` cannot panic. -/
theorem c9_unwrap_safe (e : ManifestData) (env : DlEnv) (fs fs' : FS) (dir f : String)
    (hw : e.is_wallpaper = true) :
    e.wallpaper_url.isSome = true ∧
    e.download_wallpaper env fs dir f ≠ .panicked ∧
    e.download_wallpaper env fs dir f ≠
      .err "Manifest does not contain wallpaper data" fs' := by
  have hsome : e.wallpaper_url.isSome = true := by
    rw [ManifestData.wallpaper_url]
    rw [ManifestData.is_wallpaper] at hw
    rcases h : e.dhd.or e.dsd with _ | u
    · rw [Option.or_eq_none] at h
      simp [h.1, h.2] at hw
    · rfl
  obtain ⟨url, hurl⟩ := Option.isSome_iff_exists.mp hsome
  refine ⟨hsome, ?_, ?_⟩ <;>
  · rw [ManifestData.download_wallpaper, if_neg (by simp [hw])]
    simp only [hurl]
    cases env.http url <;> simp
    split
    · simp
    · split
      · split <;> simp
      · simp

/-- Witness for C9 at a concrete wallpaper entry and environment. -/
theorem c9_unwrap_safe_witness :
    entryBoth.is_wallpaper = true ∧
    (entryBoth.wallpaper_url.isSome = true ∧
     entryBoth.download_wallpaper envOkHttp fsEmpty "wallpapers" "0_0" ≠ .panicked ∧
     entryBoth.download_wallpaper envOkHttp fsEmpty "wallpapers" "0_0" ≠
       .err "Manifest does not contain wallpaper data" fsEmpty) :=
  ⟨rfl, c9_unwrap_safe entryBoth envOkHttp fsEmpty fsEmpty "wallpapers" "0_0" rfl⟩

/-- Claim C10, confirmed.  Manifest parsing requires the `version` field: a
top-level object lacking the `version` key is rejected, and so is one whose
`version` value is not an integer in `0..=255` (any `parseU8` failure
propagates); every non-integer JSON shape fails `parseU8`; and a body with
`version` and a well-formed `data` map parses successfully with unknown
fields ignored at both levels. -/
theorem c10_version_required :
    (∀ fields : List (String × Json), (∀ kv ∈ fields, kv.1 ≠ "version") →
      Manifest.fromJson (.obj fields) = .error "missing field version") ∧
    (∀ (fields : List (String × Json)) (j : Json) (msg : String),
      Json.getField fields ["version"] = some j → parseU8 j = .error msg →
      Manifest.fromJson (.obj fields) = .error msg) ∧
    (∀ n : Int, ¬(0 ≤ n ∧ n ≤ 255) →
      parseU8 (.num n) = .error "invalid value: integer out of range for u8") ∧
    (∀ (s : String) (b : Bool) (l : List Json) (fl : List (String × Json)),
      parseU8 .null = .error "invalid type: expected u8" ∧
      parseU8 (.str s) = .error "invalid type: expected u8" ∧
      parseU8 (.bool b) = .error "invalid type: expected u8" ∧
      parseU8 (.arr l) = .error "invalid type: expected u8" ∧
      parseU8 (.obj fl) = .error "invalid type: expected u8") ∧
    Manifest.fromJson sampleBody = .ok sampleManifest := by
  refine ⟨?_, ?_, ?_, ?_, ?_⟩
  · intro fields h
    have hg : Json.getField fields ["version"] = none := by
      rw [Json.getField]
      rw [List.find?_eq_none.mpr]
      intro kv hkv
      simpa using h kv hkv
    simp [Manifest.fromJson, hg]
  · intro fields j msg h1 h2
    simp [Manifest.fromJson, h1, h2]
  · intro n h
    rw [parseU8, if_neg h]
  · intro s b l fl
    exact ⟨rfl, rfl, rfl, rfl, rfl⟩
  · rfl

/-- Witness for C10: a body without `version` and a body with `version`
equal to 256 are both rejected. -/
theorem c10_version_required_witness :
    Manifest.fromJson (.obj fieldsNoVer) = .error "missing field version" ∧
    Manifest.fromJson (.obj fieldsBadVer) =
      .error "invalid value: integer out of range for u8" ∧
    parseU8 (.num 256) = .error "invalid value: integer out of range for u8" ∧
    parseU8 (.str "5") = .error "invalid type: expected u8" :=
  ⟨c10_version_required.1 fieldsNoVer (by decide),
   c10_version_required.2.1 fieldsBadVer (.num 256) _ rfl
     (c10_version_required.2.2.1 256 (by omega)),
   c10_version_required.2.2.1 256 (by omega),
   (c10_version_required.2.2.2.1 "5" true [] []).2.1⟩
